import Mathlib

/-!
Verification of the voice-assistant backend (src/main.py).

Shallow embedding notes:
- `os.getenv` values (`APP_TOKEN`, `GEMINI_API_KEY`) and request credentials
  are `Option String` (`none` models Python `None`); Python truthiness of
  such a value is `truthy`.
- The Gemini call `model.generate_content` together with `response.text` is
  modelled by an oracle parameter `upstream : Except String String`:
  `Except.ok raw` is a successful call returning raw text, `Except.error msg`
  is any provider-side exception raised during the call (quota, network,
  blocked response, ...), carrying the exception text.
- Audio payloads are modelled by their byte lists / lengths: main.py never
  inspects the bytes, it only checks `len(audio_content) == 0` and passes the
  blob through opaquely.
- Message delivery (`manager.send_message` / `websocket.send_json`) is
  modelled as succeeding; the claims under study are about which messages the
  handler produces and about its control flow, not about delivery faults.
- WebSocket frames follow the uvicorn ASGI shape actually used by the code
  (`uvicorn.run` at main.py:247): a binary frame is a dict with a `bytes`
  key, a text frame is a dict with a `text` key and no `bytes` key, and a
  disconnect event has type `websocket.disconnect`.
-/

namespace VoiceAssistant

/-- Python truthiness of an optional string: `None` and the empty string are
falsy, every other string is truthy. -/
def truthy : Option String → Bool
  | none => false
  | some s => s != ""

/-- main.py:50-58, `authenticate_websocket`: reads the `token` query
parameter (`none` when absent) and compares it with `APP_TOKEN`:
`if not APP_TOKEN or token != APP_TOKEN: return False` then `return True`.
The surrounding `try/except` only returns `False` on an exception, and no
step of the body can raise. -/
def authenticate_websocket (appToken token : Option String) : Bool :=
  if (!truthy appToken) || token != appToken then false else true

/-- main.py:214, the authentication guard of the HTTP endpoint
`process_voice_input`: `true` exactly when
`if not APP_TOKEN or x_app_token != APP_TOKEN` fires, i.e. when the request
is rejected as unauthorized. -/
def http_auth_rejects (appToken xAppToken : Option String) : Bool :=
  (!truthy appToken) || xAppToken != appToken

/-- Python `str.strip()` on the character sequence: drop leading and
trailing whitespace. -/
def stripChars (l : List Char) : List Char :=
  ((l.dropWhile Char.isWhitespace).reverse.dropWhile Char.isWhitespace).reverse

/-- Python `str.strip()` (as used at main.py:103 on `response.text`). -/
def pyStrip (s : String) : String :=
  String.mk (stripChars s.data)

/-- The dict returned by `process_audio_with_gemini` (main.py:108-133):
three string fields `transcript`, `replyText`, `type`. -/
structure AudioResult where
  transcript : String
  replyText : String
  type : String
deriving DecidableEq, Repr

/-- main.py:62-125, the body of `process_audio_with_gemini` before the outer
`except Exception` at main.py:127. `Except.error` is an exception escaping
the body: the only such exception is the explicit
`raise Exception("GEMINI_API_KEY not configured")` at main.py:66, because the
inner `try/except` (main.py:76-120) catches every exception of the Gemini
call and returns the fixed fallback dict instead. -/
def process_audio_body (apiKey : Option String) (upstream : Except String String) :
    Except String AudioResult :=
  if !truthy apiKey then Except.error "GEMINI_API_KEY not configured"
  else
    match upstream with
    | Except.error _ =>
        Except.ok
          { transcript := "Processing audio",
            replyText := "I'm having trouble processing your audio right now. Please try again.",
            type := "error" }
    | Except.ok raw =>
        Except.ok
          { transcript := "Voice message processed",
            replyText := pyStrip raw,
            type := "assistant_response" }

/-- main.py:60-133, `process_audio_with_gemini`: the body wrapped in the
outer `except Exception` (main.py:127-133), which substitutes the generic
error dict. -/
def process_audio_with_gemini (apiKey : Option String) (upstream : Except String String) :
    AudioResult :=
  match process_audio_body apiKey upstream with
  | Except.ok r => r
  | Except.error _ =>
      { transcript := "Error processing audio",
        replyText := "Sorry, I encountered an error. Please try again.",
        type := "error" }

end VoiceAssistant

namespace VoiceAssistant

/-- One inbound ASGI websocket event as received at main.py:148, in the
shape uvicorn delivers: binary frames carry a `bytes` key, text frames carry
only a `text` key, and a disconnect is its own event type. -/
inductive Frame where
  | receiveBytes (payload : List Nat)
  | receiveText (s : String)
  | disconnectFrame
deriving DecidableEq, Repr

/-- One outbound JSON message produced by the websocket handler: either a
small control dict with `type` and `message` keys, or the full processed
audio result dict. -/
inductive OutMsg where
  | ctrl (msgType message : String)
  | result (r : AudioResult)
deriving DecidableEq, Repr

/-- main.py:146-195, the body of the receive loop for one inbound frame.
Returns the messages sent on the connection, whether the loop continues, and
how many times `process_audio_with_gemini` was invoked.
A binary frame (`"bytes" in data`) is validated for emptiness and otherwise
processed; a `websocket.disconnect` event breaks the loop; every other
event, a text frame included, matches neither the `if` at main.py:151 nor
the `elif` at main.py:181 and falls through silently. Since
`process_audio_with_gemini` returns on every path, the
`except` at main.py:174-179 sending "Failed to process audio" has no
corresponding branch here. -/
def wsHandleFrame (frame : Frame) (apiKey : Option String)
    (up : Except String String) : List OutMsg × Bool × Nat :=
  match frame with
  | Frame.receiveBytes p =>
      if p.length = 0 then
        ([OutMsg.ctrl "error" "Empty audio received"], true, 0)
      else
        ([OutMsg.ctrl "processing" "Processing your audio...",
          OutMsg.result (process_audio_with_gemini apiKey up)], true, 1)
  | Frame.receiveText _ => ([], true, 0)
  | Frame.disconnectFrame => ([], false, 0)

/-- main.py:145-195, the receive loop over a whole inbound frame sequence.
`ups` supplies one upstream outcome per processed audio frame. Returns all
messages sent and the total number of processing invocations. -/
def wsLoop : List Frame → Option String → List (Except String String) → List OutMsg × Nat
  | [], _, _ => ([], 0)
  | f :: fs, apiKey, ups =>
      let r := wsHandleFrame f apiKey (ups.headD (Except.error "no upstream outcome"))
      if r.2.1 = false then (r.1, r.2.2)
      else
        let ups' := if r.2.2 = 0 then ups else ups.tail
        let rest := wsLoop fs apiKey ups'
        (r.1 ++ rest.1, r.2.2 + rest.2)

/-- main.py:36-39, `ConnectionManager.disconnect`: remove the first
occurrence of the handle when present (`list.remove`), do nothing otherwise;
never raises. -/
def ConnectionManager.disconnect (conns : List Nat) (ws : Nat) : List Nat :=
  if ws ∈ conns then conns.erase ws else conns

/-- The observable outcome of one run of the websocket endpoint. -/
structure WSOutcome where
  accepted : Bool
  everRegistered : Bool
  closeCode : Option Nat
  messages : List OutMsg
  finalConns : List Nat
  processCount : Nat
deriving DecidableEq, Repr

/-- main.py:135-202, `websocket_voice_endpoint`: authenticate; on failure
close with code 1008 before accepting and return; on success accept and
append to `manager.active_connections` (main.py:31-33), run the receive
loop, and in the `finally` block call `manager.disconnect` (main.py:201-202).
`conns` is the active-connection list when this connection arrives and `ws`
its (fresh) handle. -/
def websocket_voice_endpoint (appToken token : Option String) (ws : Nat)
    (conns : List Nat) (frames : List Frame) (apiKey : Option String)
    (ups : List (Except String String)) : WSOutcome :=
  if authenticate_websocket appToken token = false then
    { accepted := false, everRegistered := false, closeCode := some 1008,
      messages := [], finalConns := conns, processCount := 0 }
  else
    let loopResult := wsLoop frames apiKey ups
    { accepted := true, everRegistered := true, closeCode := none,
      messages := loopResult.1,
      finalConns := ConnectionManager.disconnect (conns ++ [ws]) ws,
      processCount := loopResult.2 }

/-- A Python exception live inside the `try` of `process_voice_input`:
either a `fastapi.HTTPException` (carrying status code and detail) or any
other exception (carrying its message). -/
inductive Exc where
  | httpExc (status : Nat) (detail : String)
  | genericExc (msg : String)
deriving DecidableEq, Repr

/-- Python `str(e)`: starlette's `HTTPException.__str__` renders
`f"{status_code}: {detail}"`; for a plain exception `str(e)` is its
message. -/
def excStr : Exc → String
  | Exc.httpExc s d => toString s ++ ": " ++ d
  | Exc.genericExc m => m

/-- What the HTTP client receives from `process_voice_input`: either the
JSON success payload (main.py:227-231) or an error status with detail. -/
inductive HTTPResult where
  | response (transcript replyText replyAudioBase64 : String)
  | httpError (status : Nat) (detail : String)
deriving DecidableEq, Repr

/-- main.py:205-235, `process_voice_input`. `readResult` models
`await audio_data.read()`: `Except.ok len` is a successful read of a payload
of that length, `Except.error msg` a transport fault whose `str` is `msg`.
The body raises `HTTPException(401)` on bad auth and `HTTPException(400)` on
an empty payload; fastapi's `HTTPException` subclasses `Exception`, so every
exception of the body, these two included, is caught by the
`except Exception as e` at main.py:233 and re-raised as
`HTTPException(status_code=500, detail=str(e))`. The second component counts
invocations of `process_audio_with_gemini`. -/
def process_voice_input (appToken xAppToken : Option String)
    (readResult : Except String Nat) (apiKey : Option String)
    (upstream : Except String String) : HTTPResult × Nat :=
  let body : Except Exc AudioResult × Nat :=
    if http_auth_rejects appToken xAppToken then
      (Except.error (Exc.httpExc 401 "Invalid app token"), 0)
    else
      match readResult with
      | Except.error m => (Except.error (Exc.genericExc m), 0)
      | Except.ok len =>
          if len = 0 then (Except.error (Exc.httpExc 400 "Empty audio file"), 0)
          else (Except.ok (process_audio_with_gemini apiKey upstream), 1)
  match body with
  | (Except.ok r, n) => (HTTPResult.response r.transcript r.replyText "not_needed", n)
  | (Except.error e, n) => (HTTPResult.httpError 500 (excStr e), n)

/-- States of `manager.active_connections` reachable in the running program:
starting empty (main.py:29), grown by `connect` (main.py:31-33, appends the
handle of a newly accepted connection — a fresh object, hence `w ∉ s`: one
live connection object is handled by exactly one endpoint invocation and so
is appended at most once), and shrunk by `disconnect`. -/
inductive Reachable : List Nat → Prop where
  | nil : Reachable []
  | connect {s : List Nat} {w : Nat} : Reachable s → w ∉ s → Reachable (s ++ [w])
  | disconnect {s : List Nat} (w : Nat) : Reachable s → Reachable (ConnectionManager.disconnect s w)

end VoiceAssistant

namespace VoiceAssistant

/-- C1: for every presented credential and configured secret, both the
WebSocket query-parameter check and the HTTP header check authorize iff the
configured secret is a non-empty string and the presented credential equals
it exactly; in particular with no secret configured both fail, even for an
empty or absent credential (fail-closed). -/
theorem token_auth_iff (secret cred : Option String) :
    (authenticate_websocket secret cred = true ↔
      ∃ s, secret = some s ∧ s ≠ "" ∧ cred = some s)
  ∧ (http_auth_rejects secret cred = false ↔
      ∃ s, secret = some s ∧ s ≠ "" ∧ cred = some s) := by
  cases secret with
  | none =>
      simp [authenticate_websocket, http_auth_rejects, truthy]
  | some s =>
      cases cred with
      | none =>
          simp [authenticate_websocket, http_auth_rejects, truthy]
      | some c =>
          by_cases hs : s = "" <;> by_cases hc : c = s <;>
            simp [authenticate_websocket, http_auth_rejects, truthy, hs, hc]

/-- C2: evaluation at the failing inputs. fastapi's `HTTPException` is a
subclass of `Exception`, so the blanket `except Exception as e` at
main.py:233 catches the endpoint's own `HTTPException(401)` and re-raises it
as status 500 with detail `str(e)`; an unauthorized request therefore gets a
500, not a 401-equivalent, and a generic transport fault gets a 500 whose
detail is the raw internal exception text, leaked verbatim to the client. -/
theorem http_catchall_converts_and_leaks :
    (process_voice_input (some "s") (some "wrong") (Except.ok 4) (some "k")
        (Except.ok "hi")).1
      = HTTPResult.httpError 500 "401: Invalid app token"
  ∧ (process_voice_input (some "s") (some "s")
        (Except.error "ConnectionResetError(104, Connection reset by peer)")
        (some "k") (Except.ok "hi")).1
      = HTTPResult.httpError 500 "ConnectionResetError(104, Connection reset by peer)" := by
  constructor <;> rfl

/-- C3 counterexample: on raw upstream text carrying both labeled markers,
the code does not split on them: the transcript is not "hi" and the reply
text is not "hello there", refuting marker-based parsing. -/
theorem marker_input_not_split :
    (process_audio_with_gemini (some "k")
        (Except.ok "TRANSCRIPT: hi\nRESPONSE: hello there")).transcript ≠ "hi"
  ∧ (process_audio_with_gemini (some "k")
        (Except.ok "TRANSCRIPT: hi\nRESPONSE: hello there")).replyText ≠ "hello there" := by
  constructor <;> decide

/-- C3 amended: no marker-based parsing occurs. For the marker-bearing raw
text the result has the fixed transcript "Voice message processed" and a
replyText equal to the whole raw text (stripped), markers included. -/
theorem marker_text_passed_through (apiKey : Option String)
    (h : truthy apiKey = true) :
    process_audio_with_gemini apiKey
        (Except.ok "TRANSCRIPT: hi\nRESPONSE: hello there")
      = { transcript := "Voice message processed",
          replyText := "TRANSCRIPT: hi\nRESPONSE: hello there",
          type := "assistant_response" } := by
  simp [process_audio_with_gemini, process_audio_body, h]
  decide

/-- Witness for the amended C3 at a concrete configured API key. -/
theorem marker_text_passed_through_witness :
    process_audio_with_gemini (some "k")
        (Except.ok "TRANSCRIPT: hi\nRESPONSE: hello there")
      = { transcript := "Voice message processed",
          replyText := "TRANSCRIPT: hi\nRESPONSE: hello there",
          type := "assistant_response" } :=
  marker_text_passed_through (some "k") (by decide)

/-- C4 counterexample: a keep-alive ping text frame produces no outbound
message at all — it is neither answered immediately (no pong, nothing) nor
answered with a per-message error; it is silently skipped (the frame matches
neither the bytes branch at main.py:151 nor the disconnect branch at
main.py:181), refuting both halves of the claim. The connection does remain
open. -/
theorem ping_frame_unanswered :
    wsHandleFrame (Frame.receiveText "\x7b\"type\": \"ping\"\x7d") (some "k")
        (Except.ok "hi")
      = ([], true, 0) := rfl

/-- C4 amended: every inbound text frame — keep-alive pings and unrecognized
content alike — is silently ignored: no reply of any kind is sent, the
exchange state machine is not invoked, and the connection is left open. -/
theorem text_frames_ignored (s : String) (apiKey : Option String)
    (up : Except String String) :
    wsHandleFrame (Frame.receiveText s) apiKey up = ([], true, 0) := rfl

/-- C5: whenever the upstream invocation fails (the API key being configured,
so that the call is actually attempted), the produced result has type
"error" and its replyText is the fixed non-empty fallback string, and the
websocket loop continues (the failure is absorbed, never closing the
connection). -/
theorem upstream_failure_fixed_fallback (apiKey : Option String) (msg : String)
    (h : truthy apiKey = true) :
    process_audio_with_gemini apiKey (Except.error msg)
      = { transcript := "Processing audio",
          replyText := "I'm having trouble processing your audio right now. Please try again.",
          type := "error" }
  ∧ ("I'm having trouble processing your audio right now. Please try again." : String) ≠ ""
  ∧ (wsHandleFrame (Frame.receiveBytes [1]) apiKey (Except.error msg)).2.1 = true := by
  refine ⟨?_, by decide, rfl⟩
  simp [process_audio_with_gemini, process_audio_body, h]

/-- Witness for C5 at a concrete configured key and provider error. -/
theorem upstream_failure_fixed_fallback_witness :
    process_audio_with_gemini (some "k") (Except.error "429 quota exceeded")
      = { transcript := "Processing audio",
          replyText := "I'm having trouble processing your audio right now. Please try again.",
          type := "error" }
  ∧ ("I'm having trouble processing your audio right now. Please try again." : String) ≠ ""
  ∧ (wsHandleFrame (Frame.receiveBytes [1]) (some "k")
        (Except.error "429 quota exceeded")).2.1 = true :=
  upstream_failure_fixed_fallback (some "k") "429 quota exceeded" (by decide)

/-- C6 counterexample: on empty upstream raw text the replyText is the empty
string and the type stays "assistant_response" — no fixed safe message is
substituted and nothing is marked degraded, refuting both the non-emptiness
guarantee and the degraded marking. -/
theorem empty_raw_text_not_substituted :
    (process_audio_with_gemini (some "k") (Except.ok "")).replyText = ""
  ∧ (process_audio_with_gemini (some "k") (Except.ok "")).type = "assistant_response" := by
  constructor <;> decide

/-- C6 amended: the replyText of a successful-call outcome is always the
trimmed raw text, with no substitution: in particular for empty raw text the
replyText is empty and the result is still typed "assistant_response". -/
theorem empty_raw_reply_is_trimmed_raw (apiKey : Option String) (raw : String)
    (h : truthy apiKey = true) :
    (process_audio_with_gemini apiKey (Except.ok raw)).replyText = pyStrip raw
  ∧ process_audio_with_gemini apiKey (Except.ok "")
      = { transcript := "Voice message processed", replyText := "",
          type := "assistant_response" } := by
  refine ⟨?_, ?_⟩
  · simp [process_audio_with_gemini, process_audio_body, h]
  · simp [process_audio_with_gemini, process_audio_body, h]
    rfl

/-- Witness for the amended C6 at a concrete key and raw text. -/
theorem empty_raw_reply_is_trimmed_raw_witness :
    (process_audio_with_gemini (some "k") (Except.ok " hi ")).replyText = pyStrip " hi "
  ∧ process_audio_with_gemini (some "k") (Except.ok "")
      = { transcript := "Voice message processed", replyText := "",
          type := "assistant_response" } :=
  empty_raw_reply_is_trimmed_raw (some "k") " hi " (by decide)

/-- C7: a zero-length payload never reaches the processing function on
either transport: the HTTP endpoint raises the validation error before
invoking processing (invocation count 0; the client-visible result carries
the 400 detail, wrapped into a 500 by the blanket handler, see C2), and the
websocket handler replies with the "Empty audio received" error, keeps the
connection open, and performs no processing invocation. -/
theorem empty_payload_never_processed (secret : String) (hs : secret ≠ "")
    (apiKey : Option String) (up : Except String String) :
    (process_voice_input (some secret) (some secret) (Except.ok 0) apiKey up).2 = 0
  ∧ (process_voice_input (some secret) (some secret) (Except.ok 0) apiKey up).1
      = HTTPResult.httpError 500 "400: Empty audio file"
  ∧ wsHandleFrame (Frame.receiveBytes []) apiKey up
      = ([OutMsg.ctrl "error" "Empty audio received"], true, 0) := by
  have hr : http_auth_rejects (some secret) (some secret) = false := by
    simp [http_auth_rejects, truthy, hs]
  refine ⟨?_, ?_, rfl⟩
  · simp [process_voice_input, hr]
  · simp [process_voice_input, hr, excStr]
    rfl

/-- Witness for C7 at a concrete secret, key and upstream outcome. -/
theorem empty_payload_never_processed_witness :
    (process_voice_input (some "s") (some "s") (Except.ok 0) (some "k")
        (Except.ok "hi")).2 = 0
  ∧ (process_voice_input (some "s") (some "s") (Except.ok 0) (some "k")
        (Except.ok "hi")).1
      = HTTPResult.httpError 500 "400: Empty audio file"
  ∧ wsHandleFrame (Frame.receiveBytes []) (some "k") (Except.ok "hi")
      = ([OutMsg.ctrl "error" "Empty audio received"], true, 0) :=
  empty_payload_never_processed "s" (by decide) (some "k") (Except.ok "hi")

/-- C8: when authentication fails, the websocket connection is closed with
the fixed code 1008 before the handshake accept, it is never added to the
active-connection set (which is left exactly as it was), no message is ever
sent, and no processing occurs. -/
theorem unauthorized_connect_refused (secret token : Option String) (ws : Nat)
    (conns : List Nat) (frames : List Frame) (apiKey : Option String)
    (ups : List (Except String String))
    (h : authenticate_websocket secret token = false) :
    websocket_voice_endpoint secret token ws conns frames apiKey ups
      = { accepted := false, everRegistered := false, closeCode := some 1008,
          messages := [], finalConns := conns, processCount := 0 } := by
  simp [websocket_voice_endpoint, h]

/-- Witness for C8: no secret configured, a pending frame, an existing
active connection. -/
theorem unauthorized_connect_refused_witness :
    websocket_voice_endpoint none (some "t") 9 [7] [Frame.receiveBytes [1]]
        (some "k") [Except.ok "hi"]
      = { accepted := false, everRegistered := false, closeCode := some 1008,
          messages := [], finalConns := [7], processCount := 0 } :=
  unauthorized_connect_refused none (some "t") 9 [7] [Frame.receiveBytes [1]]
    (some "k") [Except.ok "hi"] (by decide)

/-- In every program-reachable state of the active-connection list each
handle occurs at most once: `connect` appends only fresh handles and
`disconnect` only removes. -/
theorem reachable_count_le_one {s : List Nat} (h : Reachable s) (w : Nat) :
    s.count w ≤ 1 := by
  induction h with
  | nil => simp
  | connect hs hw ih =>
      rename_i t v
      rw [List.count_append]
      by_cases hv : w = v
      · subst hv
        have h0 : t.count w = 0 := List.count_eq_zero.mpr hw
        simp [h0]
      · have h1 : List.count w [v] = 0 := by
          simp [List.count_singleton]
          exact fun he => hv he.symm
        omega
  | disconnect w' hs ih =>
      rename_i t
      unfold ConnectionManager.disconnect
      split
      · exact le_trans (List.Sublist.count_le (List.erase_sublist w' t) w) ih
      · exact ih

/-- C9: on every reachable state of the active-connection list,
`ConnectionManager.disconnect` is idempotent — a second call changes
nothing — calling it on an absent (already-removed or never-registered)
handle returns the list unchanged without error, and when the handle is
present one call removes it completely (exactly once). -/
theorem unregister_idempotent (conns : List Nat) (ws : Nat)
    (h : Reachable conns) :
    ConnectionManager.disconnect (ConnectionManager.disconnect conns ws) ws
      = ConnectionManager.disconnect conns ws
  ∧ (ws ∉ conns → ConnectionManager.disconnect conns ws = conns)
  ∧ (ws ∈ conns → (ConnectionManager.disconnect conns ws).count ws = 0) := by
  have hcount := reachable_count_le_one h ws
  by_cases hmem : ws ∈ conns
  · have herase : (conns.erase ws).count ws = 0 := by
      rw [List.count_erase_self]
      have hpos : 0 < conns.count ws := List.count_pos_iff.mpr hmem
      omega
    have hnotmem : ws ∉ conns.erase ws := List.count_eq_zero.mp herase
    refine ⟨?_, fun hn => absurd hmem hn, fun _ => ?_⟩
    · simp [ConnectionManager.disconnect, hmem, hnotmem]
    · simp [ConnectionManager.disconnect, hmem, herase]
  · refine ⟨?_, fun _ => ?_, fun hin => absurd hin hmem⟩
    · simp [ConnectionManager.disconnect, hmem]
    · simp [ConnectionManager.disconnect, hmem]

/-- Witness for C9 on the reachable state holding exactly one connection. -/
theorem unregister_idempotent_witness :
    ConnectionManager.disconnect (ConnectionManager.disconnect [5] 5) 5
      = ConnectionManager.disconnect [5] 5
  ∧ ((5 : Nat) ∉ ([5] : List Nat) → ConnectionManager.disconnect [5] 5 = [5])
  ∧ ((5 : Nat) ∈ ([5] : List Nat) →
      (ConnectionManager.disconnect [5] 5).count 5 = 0) :=
  unregister_idempotent [5] 5 (Reachable.connect Reachable.nil (by simp))

/-- The websocket handler never produces the nested-branch message
"Failed to process audio" for any single frame: `process_audio_with_gemini`
returns on every path, so the `except` at main.py:174-179 cannot fire. -/
theorem wsHandleFrame_no_failed_msg (f : Frame) (apiKey : Option String)
    (up : Except String String) :
    OutMsg.ctrl "error" "Failed to process audio" ∉ (wsHandleFrame f apiKey up).1 := by
  cases f with
  | receiveBytes p =>
      by_cases hp : p.length = 0 <;> simp [wsHandleFrame, hp]
  | receiveText s => simp [wsHandleFrame]
  | disconnectFrame => simp [wsHandleFrame]

/-- The whole receive loop never produces "Failed to process audio". -/
theorem wsLoop_no_failed_msg (frames : List Frame) (apiKey : Option String)
    (ups : List (Except String String)) :
    OutMsg.ctrl "error" "Failed to process audio" ∉ (wsLoop frames apiKey ups).1 := by
  induction frames generalizing ups with
  | nil => simp [wsLoop]
  | cons f fs ih =>
      simp only [wsLoop]
      split
      · exact wsHandleFrame_no_failed_msg f apiKey _
      · intro hmem
        rcases List.mem_append.mp hmem with h1 | h2
        · exact wsHandleFrame_no_failed_msg f apiKey _ h1
        · exact ih _ h2

/-- C10: the audio-processing function is total toward its caller: its
result always has type "error" or "assistant_response" (a dict with the
three string fields, by construction), every failure path carries fixed
non-empty transcript and replyText, and consequently the websocket
handler's nested processing-error branch is unreachable: neither a single
frame nor a whole frame sequence ever yields the "Failed to process audio"
message. -/
theorem audio_processing_total (apiKey : Option String)
    (up : Except String String) :
    ((process_audio_with_gemini apiKey up).type = "error" →
        (process_audio_with_gemini apiKey up).transcript ≠ ""
      ∧ (process_audio_with_gemini apiKey up).replyText ≠ ""
      ∧ ((process_audio_with_gemini apiKey up).replyText
            = "I'm having trouble processing your audio right now. Please try again."
          ∨ (process_audio_with_gemini apiKey up).replyText
            = "Sorry, I encountered an error. Please try again."))
  ∧ ((process_audio_with_gemini apiKey up).type = "error"
      ∨ (process_audio_with_gemini apiKey up).type = "assistant_response")
  ∧ (∀ f, OutMsg.ctrl "error" "Failed to process audio" ∉ (wsHandleFrame f apiKey up).1)
  ∧ (∀ frames ups,
        OutMsg.ctrl "error" "Failed to process audio" ∉ (wsLoop frames apiKey ups).1) := by
  refine ⟨?_, ?_, fun f => wsHandleFrame_no_failed_msg f apiKey up,
    fun frames ups => wsLoop_no_failed_msg frames apiKey ups⟩ <;>
  · cases hk : truthy apiKey <;> cases up <;>
      simp [process_audio_with_gemini, process_audio_body, hk]

/-- Witness for C10 at a concrete failure path (no API key configured). -/
theorem audio_processing_total_witness :
    ((process_audio_with_gemini none (Except.ok "hi")).type = "error" →
        (process_audio_with_gemini none (Except.ok "hi")).transcript ≠ ""
      ∧ (process_audio_with_gemini none (Except.ok "hi")).replyText ≠ ""
      ∧ ((process_audio_with_gemini none (Except.ok "hi")).replyText
            = "I'm having trouble processing your audio right now. Please try again."
          ∨ (process_audio_with_gemini none (Except.ok "hi")).replyText
            = "Sorry, I encountered an error. Please try again."))
  ∧ ((process_audio_with_gemini none (Except.ok "hi")).type = "error"
      ∨ (process_audio_with_gemini none (Except.ok "hi")).type = "assistant_response")
  ∧ (∀ f, OutMsg.ctrl "error" "Failed to process audio"
        ∉ (wsHandleFrame f none (Except.ok "hi")).1)
  ∧ (∀ frames ups,
        OutMsg.ctrl "error" "Failed to process audio" ∉ (wsLoop frames none ups).1) :=
  audio_processing_total none (Except.ok "hi")

end VoiceAssistant
